import Mathlib

/-!
The pHYs chunk of pngjs-image (`lib/png/chunks/pHYs.js`).

A shallow embedding of the physical-pixel-dimensions chunk: its three fields, the
getters and setters, the unit validation, `encode` and `parse`, `encodeData` and
`decodeData`, followed by the properties of that code.

Conventions of the embedding.

* A field of the JavaScript object that may be `undefined` is an `Option Nat`
  (`none` is `undefined`); numbers are natural numbers, as the JSDoc types (`int`) say.
* A method that mutates `this` returns the new record. A method that may throw returns
  the thrown message (`none` when it returns normally) together with the state it
  leaves behind, so that what a failing call has already changed stays observable.
* Bytes are natural numbers; a write keeps the value modulo the width of the write.
-/

namespace PHYs

/-! ## JavaScript values and operators used by the chunk -/

/-- The shapes of JavaScript value that the container lookups and the tests on them
produce: `null`, a boolean, or an object (a chunk). -/
inductive JsVal where
  | null
  | bool (b : Bool)
  | object
  deriving DecidableEq, Repr

/-- JavaScript unary `!`: `null` is falsy, an object is truthy. The result is always a
boolean. -/
def jsNot : JsVal → JsVal
  | JsVal.null => JsVal.bool true
  | JsVal.bool b => JsVal.bool (!b)
  | JsVal.object => JsVal.bool false

/-- JavaScript `a === b` on `JsVal`: values of different types are never strictly equal;
two chunk objects returned by a lookup are compared by identity, and the only
comparisons in this file have `null` on one side. -/
def strictEq : JsVal → JsVal → Bool
  | JsVal.null, JsVal.null => true
  | JsVal.bool a, JsVal.bool b => a == b
  | JsVal.object, JsVal.object => true
  | _, _ => false

/-- JavaScript `v || d` for a field that holds `undefined` or a number: the value itself
when it is truthy, otherwise `d`. Both `undefined` and `0` are falsy. -/
def jsOr (v : Option Nat) (d : Nat) : Nat :=
  match v with
  | none => d
  | some 0 => d
  | some (n + 1) => n + 1

/-- `Array.prototype.indexOf` on an array of numbers: the first index holding a value
strictly equal to `v`, or `-1`. -/
def indexOf (xs : List Nat) (v : Nat) : Int :=
  match xs with
  | [] => -1
  | x :: rest =>
    if x = v then 0
    else if indexOf rest v = -1 then -1 else indexOf rest v + 1

/-- Modelled from the spec: the unit constants of `../utils/constants` (`units.UNKNOWN`),
which the spec gives as `unknown = 0`. -/
def units.UNKNOWN : Nat := 0

/-- Modelled from the spec: the unit constants of `../utils/constants` (`units.METER`),
which the spec gives as `meter = 1`. -/
def units.METER : Nat := 1

/-! ## The byte stream -/

/-- Modelled from the spec: the `BufferedStream` collaborator, "a byte cursor supporting
big-endian unsigned 32-bit and 8-bit reads and writes". `buffer` holds the bytes,
writes append to it, reads take bytes at `readOffset` and advance it. -/
structure BufferedStream where
  buffer : List Nat
  readOffset : Nat
  deriving DecidableEq, Repr

namespace BufferedStream

/-- Modelled from the spec: the message of the range error a read past the end of the
buffer throws. -/
def outOfRange : String := "Index out of range"

/-- Modelled from the spec: big-endian unsigned 32-bit write; appends four bytes. -/
def writeUInt32BE (s : BufferedStream) (value : Nat) : BufferedStream :=
  { s with buffer := s.buffer ++
      [value / 2 ^ 24 % 256, value / 2 ^ 16 % 256, value / 2 ^ 8 % 256, value % 256] }

/-- Modelled from the spec: unsigned 8-bit write; appends one byte. -/
def writeUInt8 (s : BufferedStream) (value : Nat) : BufferedStream :=
  { s with buffer := s.buffer ++ [value % 256] }

/-- Modelled from the spec: big-endian unsigned 32-bit read at the cursor. The cursor
advances by four on success; a read past the end throws and leaves it in place. -/
def readUInt32BE (s : BufferedStream) : Except String Nat × BufferedStream :=
  match s.buffer.drop s.readOffset with
  | b0 :: b1 :: b2 :: b3 :: _ =>
    (Except.ok (b0 * 2 ^ 24 + b1 * 2 ^ 16 + b2 * 2 ^ 8 + b3),
      { s with readOffset := s.readOffset + 4 })
  | _ => (Except.error outOfRange, s)

/-- Modelled from the spec: unsigned 8-bit read at the cursor. The cursor advances by
one on success; a read past the end throws and leaves it in place. -/
def readUInt8 (s : BufferedStream) : Except String Nat × BufferedStream :=
  match s.buffer.drop s.readOffset with
  | b :: _ => (Except.ok b, { s with readOffset := s.readOffset + 1 })
  | _ => (Except.error outOfRange, s)

end BufferedStream

/-! ## The chunk -/

/-- The fields the methods keep on `this`: `_xPPU`, `_yPPU`, `_unit`, each `undefined`
until its setter runs. -/
structure Chunk where
  _xPPU : Option Nat
  _yPPU : Option Nat
  _unit : Option Nat
  deriving DecidableEq, Repr

/-- A chunk on which no setter has been called. -/
def Chunk.fresh : Chunk := { _xPPU := none, _yPPU := none, _unit := none }

/-- `getType`. -/
def getType : String := "pHYs"

/-- `getTypeId`. -/
def getTypeId : Nat := 0x70485973

/-- `getSequence`. -/
def getSequence : Nat := 140

/-- `getXPixelPerUnit`: `this._xPPU || 1`. -/
def getXPixelPerUnit (self : Chunk) : Nat := jsOr self._xPPU 1

/-- `setXPixelPerUnit`. -/
def setXPixelPerUnit (self : Chunk) (ppu : Nat) : Chunk := { self with _xPPU := some ppu }

/-- `getYPixelPerUnit`: `this._yPPU || 1`. -/
def getYPixelPerUnit (self : Chunk) : Nat := jsOr self._yPPU 1

/-- `setYPixelPerUnit`. -/
def setYPixelPerUnit (self : Chunk) (ppu : Nat) : Chunk := { self with _yPPU := some ppu }

/-- `getUnit`: `this._unit || 0`. -/
def getUnit (self : Chunk) : Nat := jsOr self._unit 0

/-- `setUnit`: throws unless the value is one of the two unit constants, and stores it
otherwise. The first component is the thrown message. -/
def setUnit (self : Chunk) (unit : Nat) : Option String × Chunk :=
  if indexOf [units.UNKNOWN, units.METER] unit = -1 then
    (some ("Unit identifier " ++ toString unit ++ " is not valid."), self)
  else
    (none, { self with _unit := some unit })

/-- `isUnitUnknown`: `this._unit === units.UNKNOWN`. -/
def isUnitUnknown (self : Chunk) : Bool := self._unit == some units.UNKNOWN

/-- `isUnitInMeter`: `this._unit === units.METER`. -/
def isUnitInMeter (self : Chunk) : Bool := self._unit == some units.METER

/-- `encode`: writes the two densities and the unit, each taken from its getter. -/
def encode (self : Chunk) (stream : BufferedStream) : BufferedStream :=
  ((stream.writeUInt32BE (getXPixelPerUnit self)).writeUInt32BE
    (getYPixelPerUnit self)).writeUInt8 (getUnit self)

/-- What a call of `parse` leaves behind: the thrown message (`none` when it returns
normally), the chunk and the stream. -/
structure ParseResult where
  thrown : Option String
  chunk : Chunk
  stream : BufferedStream
  deriving DecidableEq, Repr

set_option linter.unusedVariables false in
/-- `parse`. The container lookup `getFirstChunk(type, required)` is a parameter: it
gives `null` when the container holds no chunk of that type and the chunk otherwise.
The three validations come first, in the order of the source; then the three reads,
each stored through its setter as soon as it is read. -/
def parse (self : Chunk) (getFirstChunk : String → Bool → JsVal)
    (stream : BufferedStream) (length : Nat) (strict : Bool) : ParseResult :=
  if strictEq (jsNot (getFirstChunk "IHDR" false)) JsVal.null then
    ⟨some ("Chunk " ++ getType ++ " requires the IHDR chunk."), self, stream⟩
  else if !strictEq (getFirstChunk getType false) JsVal.null then
    ⟨some ("Only one " ++ getType ++ " is allowed in the data."), self, stream⟩
  else if length ≠ 9 then
    ⟨some ("The length of chunk " ++ getType ++ " should be 9, but got "
      ++ toString length ++ "."), self, stream⟩
  else
    match stream.readUInt32BE with
    | (Except.error e, s1) => ⟨some e, self, s1⟩
    | (Except.ok x, s1) =>
      let c1 := setXPixelPerUnit self x
      match s1.readUInt32BE with
      | (Except.error e, s2) => ⟨some e, c1, s2⟩
      | (Except.ok y, s2) =>
        let c2 := setYPixelPerUnit c1 y
        match s2.readUInt8 with
        | (Except.error e, s3) => ⟨some e, c2, s3⟩
        | (Except.ok u, s3) =>
          match setUnit c2 u with
          | (some e, c3) => ⟨some e, c3, s3⟩
          | (none, c3) => ⟨none, c3, s3⟩

/-! ## The application-facing structures and the container -/

/-- The `physical` object of the interchange structures: three properties, each absent
(`undefined`) or a number. -/
structure Physical where
  xPixelPerUnit : Option Nat
  yPixelPerUnit : Option Nat
  unit : Option Nat
  deriving DecidableEq, Repr

/-- The export structure `data` handed to `encodeData`, as far as it is read: the
property `physical`, absent or an object. -/
structure ExportData where
  physical : Option Physical
  deriving DecidableEq, Repr

/-- The own properties of a JavaScript object, in insertion order. -/
abbrev Props (V : Type) := List (String × V)

/-- Property read `o.k`: `none` is `undefined`. -/
def getProp {V : Type} (o : Props V) (k : String) : Option V :=
  match o with
  | [] => none
  | (k', v) :: rest => if k' = k then some v else getProp rest k

/-- Property assignment `o.k = v`: replaces the value of an existing property in place,
adds the property otherwise. -/
def setProp {V : Type} (o : Props V) (k : String) (v : V) : Props V :=
  match o with
  | [] => [(k, v)]
  | (k', v') :: rest => if k' = k then (k, v) :: rest else (k', v') :: setProp rest k v

/-- What a property of `data.volatile` holds: the `physical` object this chunk type
writes, or a value written by another chunk type. -/
inductive VolatileVal where
  | physical (p : Physical)
  | other (v : Nat)
  deriving DecidableEq, Repr

/-- The import structure `data` handed to `decodeData`: the property `volatile`, absent or
an object, and the other top-level properties. -/
structure ImportData where
  volatile : Option (Props VolatileVal)
  others : Props Nat
  deriving DecidableEq, Repr

set_option linter.unusedVariables false in
/-- Modelled from the spec: the container service `createChunk(type, chunks)`,
"construction of a new record of a given type tag bound to the container's record list".
The new record has no field set. -/
def createChunk (type : String) : Chunk := Chunk.fresh

set_option linter.unusedVariables false in
/-- `encodeData`. Throws when `setUnit` throws; otherwise returns the list of chunks to
encode. -/
def encodeData (image : List Nat) (data : ExportData) : Except String (List Chunk) :=
  match data.physical with
  | some physical =>
    let chunk := createChunk getType
    let chunk := match physical.xPixelPerUnit with
      | some v => setXPixelPerUnit chunk v
      | none => chunk
    let chunk := match physical.yPixelPerUnit with
      | some v => setYPixelPerUnit chunk v
      | none => chunk
    match physical.unit with
    | some v =>
      match setUnit chunk v with
      | (some e, _) => Except.error e
      | (none, chunk) => Except.ok [chunk]
    | none => Except.ok [chunk]
  | none => Except.ok []

/-- What a call of `decodeData` leaves behind: the thrown message (`none` when it returns
normally), the import structure, and the records of this type in the container, which
the call only reads through their getters. -/
structure DecodeResult where
  thrown : Option String
  data : ImportData
  chunks : Option (List Chunk)
  deriving DecidableEq, Repr

set_option linter.unusedVariables false in
/-- `decodeData`. The container lookup `getChunksByType(type)` is a parameter: it gives
the array of the decoded records of that type, or a falsy value (`none`) when there is
none. -/
def decodeData (getChunksByType : String → Option (List Chunk)) (data : ImportData)
    (strict : Bool) : DecodeResult :=
  match getChunksByType getType with
  | none => ⟨none, data, none⟩
  | some chunks =>
    if chunks.length ≠ 1 then
      ⟨some ("Not more than one chunk allowed for " ++ getType ++ "."), data, some chunks⟩
    else
      let volatile := data.volatile.getD []
      match chunks[0]? with
      | none =>
        ⟨some "TypeError: Cannot read properties of undefined",
          { data with volatile := some volatile }, some chunks⟩
      | some chunk =>
        ⟨none,
          { data with volatile := some (setProp volatile "physical"
              (VolatileVal.physical
                { xPixelPerUnit := some (getXPixelPerUnit chunk),
                  yPixelPerUnit := some (getYPixelPerUnit chunk),
                  unit := some (getUnit chunk) })) },
          some chunks⟩

/-! ## Vocabulary of the statements -/

/-- The bytes a write sequence appended: what `after` holds beyond the bytes of
`before`. -/
def written (before after : BufferedStream) : List Nat :=
  after.buffer.drop before.buffer.length

/-- A stream whose cursor stands at the start of `payload`, with arbitrary bytes before
and after it. -/
def streamAt (pre payload post : List Nat) : BufferedStream :=
  { buffer := pre ++ payload ++ post, readOffset := pre.length }

/-- Big-endian unsigned 32-bit layout of a value, as four bytes. -/
def be32 (v : Nat) : List Nat :=
  [v / 2 ^ 24 % 256, v / 2 ^ 16 % 256, v / 2 ^ 8 % 256, v % 256]

/-- The stored unit, when there is one, is a value `setUnit` accepts. `setUnit` is the only
writer of `_unit`, so this holds of every record the methods can produce (see
`unitValid_fresh`, `unitValid_setUnit`, `unitValid_parse`). -/
def Chunk.unitValid (c : Chunk) : Prop :=
  ∀ a, c._unit = some a → a = 0 ∨ a = 1

/-- One of the two validations of `parse` that can throw does so: a pHYs chunk already
exists in the container, or the declared length is not 9. The header test is not among
them: as the source writes it, it is false for every lookup (`header_test_false`), so a
missing header is not covered. -/
def checkThrows (gfc : String → Bool → JsVal) (length : Nat) : Prop :=
  gfc "pHYs" false ≠ JsVal.null ∨ length ≠ 9

/-- The value of a byte string read as a big-endian unsigned integer. -/
def fromBE (bytes : List Nat) : Nat :=
  bytes.foldl (fun acc b => acc * 256 + b) 0

/-- The record obtained from a fresh one by `setXPixelPerUnit x`, `setYPixelPerUnit y` and
`setUnit u`, with the message `setUnit` threw, if any. -/
def recordOf (x y u : Nat) : Option String × Chunk :=
  setUnit (setYPixelPerUnit (setXPixelPerUnit Chunk.fresh x) y) u

/-- The lookup of a container that holds chunks of exactly the listed types, used to
build concrete containers: `null` for a type that is absent. -/
def lookupIn (types : List String) : String → Bool → JsVal :=
  fun type _ => if type ∈ types then JsVal.object else JsVal.null

/-- The lookup of all records of a type in a container whose records of this chunk type
are `records`: the array of them, or `null` when there is none (the falsy result that
the `!chunks` test of `decodeData` expects of a container without such records). -/
def recordsOf (records : List Chunk) : String → Option (List Chunk) :=
  fun type => if type = "pHYs" ∧ records ≠ [] then some records else none

/-- The chunk that `encodeData` builds from a `physical` object whose unit, if present, is
valid: every present property stored, every absent one left unset. -/
def Physical.toChunk (p : Physical) : Chunk :=
  { _xPPU := p.xPixelPerUnit, _yPPU := p.yPixelPerUnit, _unit := p.unit }

/-- The read `data.volatile[k]` on an import structure: `none` when `data.volatile` or the
property is absent. -/
def readVolatile (data : ImportData) (k : String) : Option VolatileVal :=
  match data.volatile with
  | none => none
  | some volatile => getProp volatile k

/-! ## Lemmas on the stream and on `parse` -/

theorem jsOr_of_pos (n d : Nat) (h : 0 < n) : jsOr (some n) d = n := by
  cases n with
  | zero => omega
  | succ k => rfl

theorem jsOr_zero (d : Nat) : jsOr (some 0) d = d := rfl

theorem jsOr_default_zero (n : Nat) : jsOr (some n) 0 = n := by
  cases n <;> rfl

/-- The header test of `parse`, `!lookup === null`, is false whatever the lookup
returned: `!` always yields a boolean. -/
theorem header_test_false (v : JsVal) : strictEq (jsNot v) JsVal.null = false := by
  cases v <;> rfl

theorem indexOf_units (u : Nat) :
    indexOf [units.UNKNOWN, units.METER] u = -1 ↔ ¬ (u = 0 ∨ u = 1) := by
  simp only [indexOf, units.UNKNOWN, units.METER]
  by_cases h0 : 0 = u
  · simp [h0.symm]
  · by_cases h1 : 1 = u
    · simp [h1.symm]
    · have h0' : ¬ u = 0 := fun h => h0 h.symm
      have h1' : ¬ u = 1 := fun h => h1 h.symm
      simp [h0, h1, h0', h1']

theorem setUnit_valid (c : Chunk) (u : Nat) (hu : u = 0 ∨ u = 1) :
    setUnit c u = (none, { c with _unit := some u }) := by
  have h : ¬ indexOf [units.UNKNOWN, units.METER] u = -1 := by
    rw [indexOf_units]; exact fun h => h hu
  simp [setUnit, h]

theorem setUnit_invalid (c : Chunk) (u : Nat) (hu : ¬ (u = 0 ∨ u = 1)) :
    setUnit c u = (some ("Unit identifier " ++ toString u ++ " is not valid."), c) := by
  have h : indexOf [units.UNKNOWN, units.METER] u = -1 := (indexOf_units u).2 hu
  simp [setUnit, h]

theorem drop_streamAt (pre payload post : List Nat) (k : Nat) :
    (streamAt pre payload post).buffer.drop (pre.length + k) = (payload ++ post).drop k := by
  simp [streamAt, List.append_assoc, List.drop_append]

theorem readUInt32BE_of_drop (s : BufferedStream) (b0 b1 b2 b3 : Nat) (rest : List Nat)
    (h : s.buffer.drop s.readOffset = b0 :: b1 :: b2 :: b3 :: rest) :
    s.readUInt32BE = (Except.ok (b0 * 2 ^ 24 + b1 * 2 ^ 16 + b2 * 2 ^ 8 + b3),
      { s with readOffset := s.readOffset + 4 }) := by
  simp [BufferedStream.readUInt32BE, h]

theorem readUInt8_of_drop (s : BufferedStream) (b : Nat) (rest : List Nat)
    (h : s.buffer.drop s.readOffset = b :: rest) :
    s.readUInt8 = (Except.ok b, { s with readOffset := s.readOffset + 1 }) := by
  simp [BufferedStream.readUInt8, h]

/-- Once the three validations pass, `parse` on nine bytes at the cursor stores the two
densities and hands the ninth byte to `setUnit`. -/
theorem parse_nine (self : Chunk) (gfc : String → Bool → JsVal) (strict : Bool)
    (pre post : List Nat) (x0 x1 x2 x3 y0 y1 y2 y3 u : Nat)
    (hP : gfc "pHYs" false = JsVal.null) :
    parse self gfc (streamAt pre [x0, x1, x2, x3, y0, y1, y2, y3, u] post) 9 strict =
      ⟨(setUnit { self with
            _xPPU := some (x0 * 2 ^ 24 + x1 * 2 ^ 16 + x2 * 2 ^ 8 + x3),
            _yPPU := some (y0 * 2 ^ 24 + y1 * 2 ^ 16 + y2 * 2 ^ 8 + y3) } u).1,
        (setUnit { self with
            _xPPU := some (x0 * 2 ^ 24 + x1 * 2 ^ 16 + x2 * 2 ^ 8 + x3),
            _yPPU := some (y0 * 2 ^ 24 + y1 * 2 ^ 16 + y2 * 2 ^ 8 + y3) } u).2,
        { buffer := pre ++ [x0, x1, x2, x3, y0, y1, y2, y3, u] ++ post,
          readOffset := pre.length + 9 }⟩ := by
  have r1 := readUInt32BE_of_drop (streamAt pre [x0, x1, x2, x3, y0, y1, y2, y3, u] post)
    x0 x1 x2 x3 ([y0, y1, y2, y3, u] ++ post)
    (by simpa using drop_streamAt pre [x0, x1, x2, x3, y0, y1, y2, y3, u] post 0)
  have r2 := readUInt32BE_of_drop
    { streamAt pre [x0, x1, x2, x3, y0, y1, y2, y3, u] post with
      readOffset := pre.length + 4 }
    y0 y1 y2 y3 ([u] ++ post)
    (by simpa using drop_streamAt pre [x0, x1, x2, x3, y0, y1, y2, y3, u] post 4)
  have r3 := readUInt8_of_drop
    { streamAt pre [x0, x1, x2, x3, y0, y1, y2, y3, u] post with
      readOffset := pre.length + 8 }
    u post
    (by simpa using drop_streamAt pre [x0, x1, x2, x3, y0, y1, y2, y3, u] post 8)
  have e1 : (streamAt pre [x0, x1, x2, x3, y0, y1, y2, y3, u] post).readOffset
      = pre.length := rfl
  simp only [e1] at r1
  have hP' : strictEq (gfc "pHYs" false) JsVal.null = true := by rw [hP]; rfl
  unfold parse
  simp only [header_test_false, getType, hP', r1, r2, r3, setXPixelPerUnit,
    setYPixelPerUnit]
  simp only [streamAt]
  generalize setUnit _ u = r
  rcases r with ⟨_ | e, c3⟩ <;> simp [Nat.add_assoc]

/-- With a pHYs chunk already in the container, `parse` throws at the second validation
and touches nothing. -/
theorem parse_of_existing (self : Chunk) (gfc : String → Bool → JsVal)
    (stream : BufferedStream) (length : Nat) (strict : Bool)
    (hP : gfc "pHYs" false ≠ JsVal.null) :
    parse self gfc stream length strict =
      ⟨some "Only one pHYs is allowed in the data.", self, stream⟩ := by
  have hP' : strictEq (gfc "pHYs" false) JsVal.null = false := by
    cases h : gfc "pHYs" false
    · exact absurd h hP
    · rfl
    · rfl
  unfold parse
  simp only [header_test_false, getType, hP']
  rfl

/-- With no pHYs chunk in the container and a declared length other than 9, `parse`
throws at the third validation and touches nothing. -/
theorem parse_of_length (self : Chunk) (gfc : String → Bool → JsVal)
    (stream : BufferedStream) (length : Nat) (strict : Bool)
    (hP : gfc "pHYs" false = JsVal.null) (hlen : length ≠ 9) :
    parse self gfc stream length strict =
      ⟨some ("The length of chunk pHYs should be 9, but got " ++ toString length ++ "."),
        self, stream⟩ := by
  have hP' : strictEq (gfc getType false) JsVal.null = true := by
    show strictEq (gfc "pHYs" false) JsVal.null = true
    rw [hP]; rfl
  have hmsg : "The length of chunk " ++ getType ++ " should be 9, but got "
      = "The length of chunk pHYs should be 9, but got " := by decide
  unfold parse
  simp only [header_test_false, hP', hmsg]
  rw [if_neg (by simp), if_neg (by simp), if_pos hlen]

theorem written_encode (c : Chunk) (out : BufferedStream) :
    written out (encode c out) =
      be32 (getXPixelPerUnit c) ++ be32 (getYPixelPerUnit c) ++ [getUnit c % 256] := by
  simp [written, encode, BufferedStream.writeUInt32BE, BufferedStream.writeUInt8, be32,
    List.append_assoc]

theorem be32_decode (v : Nat) (h : v < 2 ^ 32) :
    v / 2 ^ 24 % 256 * 2 ^ 24 + v / 2 ^ 16 % 256 * 2 ^ 16 + v / 2 ^ 8 % 256 * 2 ^ 8
      + v % 256 = v := by
  norm_num at h ⊢
  omega

theorem recordOf_valid (x y u : Nat) (hu : u = 0 ∨ u = 1) :
    recordOf x y u = (none, { _xPPU := some x, _yPPU := some y, _unit := some u }) := by
  simp [recordOf, setUnit_valid _ _ hu, setXPixelPerUnit, setYPixelPerUnit, Chunk.fresh]

theorem jsOr_lt (v : Option Nat) (d n : Nat) (hd : d < n) (hv : ∀ a, v = some a → a < n) :
    jsOr v d < n := by
  unfold jsOr
  split
  · exact hd
  · exact hd
  · exact hv _ rfl

theorem getUnit_eq (c : Chunk) (u : Nat) (h : c._unit = some u) : getUnit c = u := by
  simp only [getUnit, h]
  exact jsOr_default_zero u

/-! ## Encode, then parse -/

/-- What encode followed by parse does for all densities `x`, `y` below `2 ^ 32` and every
unit `u` that is 0 or 1: the three setters succeed, `encode` writes nine bytes, and
`parse` of those nine bytes on a fresh record (declared length 9, no pHYs chunk in the
container yet) returns normally with the unit `u` and with each density equal to the one
the encoded record's getter reported. That is the value set when it is positive; a density
set to 0 is lost in the getter. -/
theorem encode_parse_roundtrip (x y u : Nat) (hx : x < 2 ^ 32) (hy : y < 2 ^ 32)
    (hu : u = 0 ∨ u = 1) (out : BufferedStream) (pre post : List Nat)
    (gfc : String → Bool → JsVal) (strict : Bool)
    (hP : gfc "pHYs" false = JsVal.null) :
    (recordOf x y u).1 = none ∧
    (written out (encode (recordOf x y u).2 out)).length = 9 ∧
    (parse Chunk.fresh gfc
      (streamAt pre (written out (encode (recordOf x y u).2 out)) post) 9 strict).thrown
        = none ∧
    getXPixelPerUnit (parse Chunk.fresh gfc
      (streamAt pre (written out (encode (recordOf x y u).2 out)) post) 9 strict).chunk
        = getXPixelPerUnit (recordOf x y u).2 ∧
    getYPixelPerUnit (parse Chunk.fresh gfc
      (streamAt pre (written out (encode (recordOf x y u).2 out)) post) 9 strict).chunk
        = getYPixelPerUnit (recordOf x y u).2 ∧
    getUnit (parse Chunk.fresh gfc
      (streamAt pre (written out (encode (recordOf x y u).2 out)) post) 9 strict).chunk
        = u ∧
    getXPixelPerUnit (recordOf x y u).2 = (if x = 0 then 1 else x) ∧
    getYPixelPerUnit (recordOf x y u).2 = (if y = 0 then 1 else y) ∧
    getUnit (recordOf x y u).2 = u := by
  have hgx : getXPixelPerUnit (recordOf x y u).2 = (if x = 0 then 1 else x) := by
    rw [recordOf_valid x y u hu]
    cases x <;> simp [getXPixelPerUnit, jsOr]
  have hgy : getYPixelPerUnit (recordOf x y u).2 = (if y = 0 then 1 else y) := by
    rw [recordOf_valid x y u hu]
    cases y <;> simp [getYPixelPerUnit, jsOr]
  have hgu : getUnit (recordOf x y u).2 = u := by
    rw [recordOf_valid x y u hu]
    exact getUnit_eq _ u rfl
  have hxl : getXPixelPerUnit (recordOf x y u).2 < 2 ^ 32 := by
    rw [hgx]; split <;> omega
  have hyl : getYPixelPerUnit (recordOf x y u).2 < 2 ^ 32 := by
    rw [hgy]; split <;> omega
  have hum : u % 256 = u := by rcases hu with h | h <;> subst h <;> rfl
  have hu' : u % 256 = 0 ∨ u % 256 = 1 := by rw [hum]; exact hu
  have hw := written_encode (recordOf x y u).2 out
  rw [hgu] at hw
  have hp := parse_nine Chunk.fresh gfc strict pre post
    (getXPixelPerUnit (recordOf x y u).2 / 2 ^ 24 % 256)
    (getXPixelPerUnit (recordOf x y u).2 / 2 ^ 16 % 256)
    (getXPixelPerUnit (recordOf x y u).2 / 2 ^ 8 % 256)
    (getXPixelPerUnit (recordOf x y u).2 % 256)
    (getYPixelPerUnit (recordOf x y u).2 / 2 ^ 24 % 256)
    (getYPixelPerUnit (recordOf x y u).2 / 2 ^ 16 % 256)
    (getYPixelPerUnit (recordOf x y u).2 / 2 ^ 8 % 256)
    (getYPixelPerUnit (recordOf x y u).2 % 256)
    (u % 256) hP
  rw [be32_decode _ hxl, be32_decode _ hyl, setUnit_valid _ _ hu'] at hp
  have hw' : written out (encode (recordOf x y u).2 out) =
      [getXPixelPerUnit (recordOf x y u).2 / 2 ^ 24 % 256,
       getXPixelPerUnit (recordOf x y u).2 / 2 ^ 16 % 256,
       getXPixelPerUnit (recordOf x y u).2 / 2 ^ 8 % 256,
       getXPixelPerUnit (recordOf x y u).2 % 256,
       getYPixelPerUnit (recordOf x y u).2 / 2 ^ 24 % 256,
       getYPixelPerUnit (recordOf x y u).2 / 2 ^ 16 % 256,
       getYPixelPerUnit (recordOf x y u).2 / 2 ^ 8 % 256,
       getYPixelPerUnit (recordOf x y u).2 % 256,
       u % 256] := by
    rw [hw]; rfl
  rw [hw', hp]
  refine ⟨by rw [recordOf_valid x y u hu], rfl, rfl, ?_, ?_, ?_, hgx, hgy, hgu⟩
  · show jsOr (some (getXPixelPerUnit (recordOf x y u).2)) 1 = _
    rw [hgx]; split
    · rfl
    · exact jsOr_of_pos _ _ (by omega)
  · show jsOr (some (getYPixelPerUnit (recordOf x y u).2)) 1 = _
    rw [hgy]; split
    · rfl
    · exact jsOr_of_pos _ _ (by omega)
  · rw [hum]; exact getUnit_eq _ u rfl

/-- The densities 2835 and 1 with the unit meter come back as set. -/
theorem encode_parse_roundtrip_witness :
    getXPixelPerUnit (parse Chunk.fresh (lookupIn ["IHDR"])
      (streamAt [] (written ⟨[], 0⟩ (encode (recordOf 2835 1 1).2 ⟨[], 0⟩)) []) 9 false).chunk
        = getXPixelPerUnit (recordOf 2835 1 1).2 ∧
    getXPixelPerUnit (recordOf 2835 1 1).2 = (if 2835 = 0 then 1 else 2835) :=
  have h := encode_parse_roundtrip 2835 1 1 (by decide) (by decide) (by decide) ⟨[], 0⟩ [] []
    (lookupIn ["IHDR"]) false (by decide)
  ⟨h.2.2.2.1, h.2.2.2.2.2.2.1⟩

/-- C1, the code at a horizontal density of 0: with the header present and no pHYs chunk
in the container, the record set to (0, 1, unknown) holds the 0 it was given, is encoded
as `00 00 00 01 00 00 00 01 00` and parsed back without error, and the parsed record
reports the horizontal density 1, not the 0 that was set. -/
theorem encode_parse_zero_density :
    lookupIn ["IHDR"] "IHDR" false ≠ JsVal.null ∧
    lookupIn ["IHDR"] "pHYs" false = JsVal.null ∧
    (recordOf 0 1 0).1 = none ∧ (recordOf 0 1 0).2._xPPU = some 0 ∧
    written ⟨[], 0⟩ (encode (recordOf 0 1 0).2 ⟨[], 0⟩) = [0, 0, 0, 1, 0, 0, 0, 1, 0] ∧
    (parse Chunk.fresh (lookupIn ["IHDR"])
      (streamAt [] (written ⟨[], 0⟩ (encode (recordOf 0 1 0).2 ⟨[], 0⟩)) []) 9 false).thrown
        = none ∧
    getXPixelPerUnit (parse Chunk.fresh (lookupIn ["IHDR"])
      (streamAt [] (written ⟨[], 0⟩ (encode (recordOf 0 1 0).2 ⟨[], 0⟩)) []) 9 false).chunk
        = 1 ∧
    getXPixelPerUnit (parse Chunk.fresh (lookupIn ["IHDR"])
      (streamAt [] (written ⟨[], 0⟩ (encode (recordOf 0 1 0).2 ⟨[], 0⟩)) []) 9 false).chunk
        ≠ 0 := by
  decide

/-! ## The validations of `parse` -/

/-- C2, the code at a container without a header: the lookup of `IHDR` gives `null`, and
`parse` of nine valid bytes with declared length 9 returns normally and stores the
fields, instead of throwing the "requires the IHDR chunk" error. -/
theorem parse_without_header_returns :
    lookupIn [] "IHDR" false = JsVal.null ∧
    parse Chunk.fresh (lookupIn []) (streamAt [] [0, 0, 0, 1, 0, 0, 0, 1, 0] []) 9 false =
      ⟨none, { _xPPU := some 1, _yPPU := some 1, _unit := some 0 },
        { buffer := [0, 0, 0, 1, 0, 0, 0, 1, 0], readOffset := 9 }⟩ := by
  decide

/-- C3. When the container already holds a pHYs chunk, `parse` throws "Only one pHYs is
allowed in the data." whatever the stream, the declared length and the strict flag are,
and leaves the record and the stream as they were. -/
theorem parse_rejects_second_pHYs (self : Chunk) (gfc : String → Bool → JsVal)
    (stream : BufferedStream) (length : Nat) (strict : Bool)
    (hP : gfc "pHYs" false ≠ JsVal.null) :
    parse self gfc stream length strict =
      ⟨some "Only one pHYs is allowed in the data.", self, stream⟩ :=
  parse_of_existing self gfc stream length strict hP

/-- C3, witness: a container with a header and a pHYs chunk, nine valid bytes and the
declared length 9. -/
theorem parse_rejects_second_pHYs_witness :
    parse Chunk.fresh (lookupIn ["IHDR", "pHYs"])
        (streamAt [] [0, 0, 0, 1, 0, 0, 0, 1, 0] []) 9 false =
      ⟨some "Only one pHYs is allowed in the data.", Chunk.fresh,
        streamAt [] [0, 0, 0, 1, 0, 0, 0, 1, 0] []⟩ :=
  parse_rejects_second_pHYs Chunk.fresh (lookupIn ["IHDR", "pHYs"])
    (streamAt [] [0, 0, 0, 1, 0, 0, 0, 1, 0] []) 9 false (by decide)

/-- C4. With no pHYs chunk in the container yet (header present or not), every declared
length other than 9 makes `parse` throw, whatever the stream holds, and the message
states the expected length 9 and the declared length. -/
theorem parse_rejects_length (self : Chunk) (gfc : String → Bool → JsVal)
    (stream : BufferedStream) (length : Nat) (strict : Bool)
    (hP : gfc "pHYs" false = JsVal.null) (hlen : length ≠ 9) :
    parse self gfc stream length strict =
      ⟨some ("The length of chunk pHYs should be 9, but got " ++ toString length ++ "."),
        self, stream⟩ :=
  parse_of_length self gfc stream length strict hP hlen

/-- C4, witness: the declared lengths 8 and 10 over nine valid bytes, header present. -/
theorem parse_rejects_length_witness :
    parse Chunk.fresh (lookupIn ["IHDR"]) (streamAt [] [0, 0, 0, 1, 0, 0, 0, 1, 0] []) 8 false =
      ⟨some "The length of chunk pHYs should be 9, but got 8.", Chunk.fresh,
        streamAt [] [0, 0, 0, 1, 0, 0, 0, 1, 0] []⟩ ∧
    parse Chunk.fresh (lookupIn ["IHDR"]) (streamAt [] [0, 0, 0, 1, 0, 0, 0, 1, 0] []) 10 false =
      ⟨some "The length of chunk pHYs should be 9, but got 10.", Chunk.fresh,
        streamAt [] [0, 0, 0, 1, 0, 0, 0, 1, 0] []⟩ :=
  ⟨parse_rejects_length Chunk.fresh (lookupIn ["IHDR"])
      (streamAt [] [0, 0, 0, 1, 0, 0, 0, 1, 0] []) 8 false (by decide) (by decide),
    parse_rejects_length Chunk.fresh (lookupIn ["IHDR"])
      (streamAt [] [0, 0, 0, 1, 0, 0, 0, 1, 0] []) 10 false (by decide) (by decide)⟩

/-- C5. With no pHYs chunk in the container yet and the declared length 9 (header present
or not), `parse` of a nine-byte payload throws the error of `setUnit`, naming the byte,
when the ninth byte is neither 0 nor 1, and returns normally when it is 0 or 1. -/
theorem parse_unit_byte (self : Chunk) (gfc : String → Bool → JsVal) (strict : Bool)
    (pre post : List Nat) (x0 x1 x2 x3 y0 y1 y2 y3 u : Nat)
    (hP : gfc "pHYs" false = JsVal.null) :
    (¬ (u = 0 ∨ u = 1) →
      (parse self gfc (streamAt pre [x0, x1, x2, x3, y0, y1, y2, y3, u] post) 9 strict).thrown
        = some ("Unit identifier " ++ toString u ++ " is not valid.")) ∧
    ((u = 0 ∨ u = 1) →
      (parse self gfc (streamAt pre [x0, x1, x2, x3, y0, y1, y2, y3, u] post) 9 strict).thrown
        = none) := by
  rw [parse_nine self gfc strict pre post x0 x1 x2 x3 y0 y1 y2 y3 u hP]
  constructor
  · intro hu
    rw [setUnit_invalid _ _ hu]
  · intro hu
    rw [setUnit_valid _ _ hu]

/-- C5, witness: the unit bytes 2 and 1 after the densities 2835 and 1, header present. -/
theorem parse_unit_byte_witness :
    (parse Chunk.fresh (lookupIn ["IHDR"])
        (streamAt [] [0, 0, 11, 19, 0, 0, 0, 1, 2] []) 9 false).thrown
      = some "Unit identifier 2 is not valid." ∧
    (parse Chunk.fresh (lookupIn ["IHDR"])
        (streamAt [] [0, 0, 11, 19, 0, 0, 0, 1, 1] []) 9 false).thrown = none :=
  ⟨(parse_unit_byte Chunk.fresh (lookupIn ["IHDR"]) false [] [] 0 0 11 19 0 0 0 1 2
      (by decide)).1 (by decide),
    (parse_unit_byte Chunk.fresh (lookupIn ["IHDR"]) false [] [] 0 0 11 19 0 0 0 1 1
      (by decide)).2 (by decide)⟩

/-! ## The unit setter -/

/-- C6. `setUnit u` throws exactly when `u` is neither 0 nor 1; when it throws, the
message names `u` and the record is left as it was; when it returns, `getUnit` gives `u`
and the two densities, stored and as reported by their getters, are unchanged. -/
theorem setUnit_spec (c : Chunk) (u : Nat) :
    ((setUnit c u).1 ≠ none ↔ ¬ (u = 0 ∨ u = 1)) ∧
    (¬ (u = 0 ∨ u = 1) →
      setUnit c u = (some ("Unit identifier " ++ toString u ++ " is not valid."), c)) ∧
    ((u = 0 ∨ u = 1) →
      (setUnit c u).1 = none ∧ getUnit (setUnit c u).2 = u ∧
      (setUnit c u).2._xPPU = c._xPPU ∧ (setUnit c u).2._yPPU = c._yPPU ∧
      getXPixelPerUnit (setUnit c u).2 = getXPixelPerUnit c ∧
      getYPixelPerUnit (setUnit c u).2 = getYPixelPerUnit c) := by
  refine ⟨?_, fun hu => setUnit_invalid c u hu, fun hu => ?_⟩
  · by_cases hu : u = 0 ∨ u = 1
    · rw [setUnit_valid c u hu]
      simp [hu]
    · rw [setUnit_invalid c u hu]
      simp [hu]
  · rw [setUnit_valid c u hu]
    exact ⟨rfl, getUnit_eq _ u rfl, rfl, rfl, rfl, rfl⟩

/-- C6, witness: `setUnit 2` on a record holding (2835, 2835, meter) throws and changes
nothing; `setUnit 0` on it succeeds and changes only the unit. -/
theorem setUnit_spec_witness :
    setUnit ⟨some 2835, some 2835, some 1⟩ 2 =
      (some "Unit identifier 2 is not valid.", ⟨some 2835, some 2835, some 1⟩) ∧
    getUnit (setUnit ⟨some 2835, some 2835, some 1⟩ 0).2 = 0 :=
  ⟨(setUnit_spec ⟨some 2835, some 2835, some 1⟩ 2).2.1 (by decide),
    ((setUnit_spec ⟨some 2835, some 2835, some 1⟩ 0).2.2 (by decide)).2.1⟩

/-! ## The layout written by `encode` -/

theorem fromBE_be32 (v : Nat) (h : v < 2 ^ 32) : fromBE (be32 v) = v := by
  have := be32_decode v h
  simp only [fromBE, be32, List.foldl]
  omega

/-- C7. For every record whose stored densities are below `2 ^ 32` and whose stored unit,
if any, is one `setUnit` accepts, `encode` leaves the cursor and the bytes already in the
stream alone and appends exactly nine bytes, each below 256: the first four are the
big-endian form of `getXPixelPerUnit`, the next four that of `getYPixelPerUnit`, the
ninth is `getUnit`. A record on which no setter was called gives
`00 00 00 01 00 00 00 01 00`. -/
theorem encode_layout (c : Chunk) (out : BufferedStream)
    (hx : ∀ a, c._xPPU = some a → a < 2 ^ 32) (hy : ∀ a, c._yPPU = some a → a < 2 ^ 32)
    (hu : c.unitValid) :
    (encode c out).readOffset = out.readOffset ∧
    (encode c out).buffer = out.buffer ++ written out (encode c out) ∧
    (written out (encode c out)).length = 9 ∧
    (∀ b ∈ written out (encode c out), b < 256) ∧
    fromBE ((written out (encode c out)).take 4) = getXPixelPerUnit c ∧
    fromBE (((written out (encode c out)).drop 4).take 4) = getYPixelPerUnit c ∧
    (written out (encode c out)).drop 8 = [getUnit c] ∧
    written out (encode Chunk.fresh out) = [0, 0, 0, 1, 0, 0, 0, 1, 0] := by
  have hgx : getXPixelPerUnit c < 2 ^ 32 := jsOr_lt _ _ _ (by norm_num) hx
  have hgy : getYPixelPerUnit c < 2 ^ 32 := jsOr_lt _ _ _ (by norm_num) hy
  have hgu : getUnit c < 256 := by
    apply jsOr_lt _ _ _ (by norm_num)
    intro a ha
    rcases hu a ha with h | h <;> omega
  have hw := written_encode c out
  have hfresh : written out (encode Chunk.fresh out) = [0, 0, 0, 1, 0, 0, 0, 1, 0] := by
    rw [written_encode]; rfl
  rw [hw, Nat.mod_eq_of_lt hgu]
  refine ⟨rfl, ?_, rfl, ?_, ?_, ?_, rfl, hfresh⟩
  · simp [encode, BufferedStream.writeUInt32BE, BufferedStream.writeUInt8, be32,
      List.append_assoc, Nat.mod_eq_of_lt hgu]
  · intro b hb
    simp only [be32, List.cons_append, List.nil_append, List.mem_cons, List.mem_singleton,
      List.not_mem_nil, or_false] at hb
    rcases hb with h | h | h | h | h | h | h | h | h <;> subst h <;> omega
  · exact fromBE_be32 _ hgx
  · exact fromBE_be32 _ hgy

/-- C7, witness: the record holding (2835, unset, meter) written to an empty stream. -/
theorem encode_layout_witness :
    written ⟨[], 0⟩ (encode ⟨some 2835, none, some 1⟩ ⟨[], 0⟩) = [0, 0, 11, 19, 0, 0, 0, 1, 1] ∧
    fromBE ((written ⟨[], 0⟩ (encode ⟨some 2835, none, some 1⟩ ⟨[], 0⟩)).take 4)
      = getXPixelPerUnit ⟨some 2835, none, some 1⟩ :=
  ⟨by decide,
    (encode_layout ⟨some 2835, none, some 1⟩ ⟨[], 0⟩ (by decide) (by decide)
      (by unfold Chunk.unitValid; decide)).2.2.2.2.1⟩

/-! ## Parse, then encode -/

/-- What parse followed by encode does for every nine-byte payload that `parse` accepts
(bytes below 256, unit byte 0 or 1, declared length 9, no pHYs chunk in the container
yet): `encode` on the parsed record writes the unit byte unchanged and, for each density,
the four payload bytes unchanged when that density is not zero; so a payload with both
densities non-zero is written back byte for byte. A density of zero is lost in the getter
and written as `00 00 00 01`. -/
theorem parse_encode_roundtrip (self : Chunk) (gfc : String → Bool → JsVal) (strict : Bool)
    (pre post : List Nat) (out : BufferedStream) (x0 x1 x2 x3 y0 y1 y2 y3 u : Nat)
    (hb : ∀ b ∈ [x0, x1, x2, x3, y0, y1, y2, y3], b < 256)
    (hu : u = 0 ∨ u = 1) (hP : gfc "pHYs" false = JsVal.null) :
    (parse self gfc (streamAt pre [x0, x1, x2, x3, y0, y1, y2, y3, u] post) 9 strict).thrown
      = none ∧
    written out (encode
        (parse self gfc (streamAt pre [x0, x1, x2, x3, y0, y1, y2, y3, u] post) 9 strict).chunk
        out) =
      (if x0 * 2 ^ 24 + x1 * 2 ^ 16 + x2 * 2 ^ 8 + x3 = 0 then [0, 0, 0, 1]
        else [x0, x1, x2, x3]) ++
      (if y0 * 2 ^ 24 + y1 * 2 ^ 16 + y2 * 2 ^ 8 + y3 = 0 then [0, 0, 0, 1]
        else [y0, y1, y2, y3]) ++ [u] ∧
    (x0 * 2 ^ 24 + x1 * 2 ^ 16 + x2 * 2 ^ 8 + x3 ≠ 0 →
      y0 * 2 ^ 24 + y1 * 2 ^ 16 + y2 * 2 ^ 8 + y3 ≠ 0 →
      written out (encode
        (parse self gfc (streamAt pre [x0, x1, x2, x3, y0, y1, y2, y3, u] post) 9 strict).chunk
        out) = [x0, x1, x2, x3, y0, y1, y2, y3, u]) := by
  have h0 : x0 < 256 := hb x0 (by simp)
  have h1 : x1 < 256 := hb x1 (by simp)
  have h2 : x2 < 256 := hb x2 (by simp)
  have h3 : x3 < 256 := hb x3 (by simp)
  have h4 : y0 < 256 := hb y0 (by simp)
  have h5 : y1 < 256 := hb y1 (by simp)
  have h6 : y2 < 256 := hb y2 (by simp)
  have h7 : y3 < 256 := hb y3 (by simp)
  have hum : u % 256 = u := by rcases hu with h | h <;> subst h <;> rfl
  have key : ∀ b0 b1 b2 b3 : Nat, b0 < 256 → b1 < 256 → b2 < 256 → b3 < 256 →
      be32 (jsOr (some (b0 * 2 ^ 24 + b1 * 2 ^ 16 + b2 * 2 ^ 8 + b3)) 1) =
        (if b0 * 2 ^ 24 + b1 * 2 ^ 16 + b2 * 2 ^ 8 + b3 = 0 then [0, 0, 0, 1]
          else [b0, b1, b2, b3]) := by
    intro b0 b1 b2 b3 hb0 hb1 hb2 hb3
    split
    · next hz => rw [hz]; rfl
    · next hz =>
      rw [jsOr_of_pos _ _ (Nat.pos_of_ne_zero hz)]
      simp only [be32, List.cons.injEq, and_true]
      norm_num
      omega
  have hw : written out (encode
        (parse self gfc (streamAt pre [x0, x1, x2, x3, y0, y1, y2, y3, u] post) 9 strict).chunk
        out) =
      (if x0 * 2 ^ 24 + x1 * 2 ^ 16 + x2 * 2 ^ 8 + x3 = 0 then [0, 0, 0, 1]
        else [x0, x1, x2, x3]) ++
      (if y0 * 2 ^ 24 + y1 * 2 ^ 16 + y2 * 2 ^ 8 + y3 = 0 then [0, 0, 0, 1]
        else [y0, y1, y2, y3]) ++ [u] := by
    rw [parse_nine self gfc strict pre post x0 x1 x2 x3 y0 y1 y2 y3 u hP,
      setUnit_valid _ _ hu, written_encode]
    simp only [getXPixelPerUnit, getYPixelPerUnit]
    rw [key x0 x1 x2 x3 h0 h1 h2 h3, key y0 y1 y2 y3 h4 h5 h6 h7, getUnit_eq _ u rfl, hum]
  refine ⟨?_, hw, ?_⟩
  · rw [parse_nine self gfc strict pre post x0 x1 x2 x3 y0 y1 y2 y3 u hP,
      setUnit_valid _ _ hu]
  · intro hx hy
    rw [hw, if_neg hx, if_neg hy]
    rfl

/-- The payload `00 00 0B 13 00 00 0B 13 01` is written back unchanged. -/
theorem parse_encode_roundtrip_witness :
    written ⟨[], 0⟩ (encode
      (parse Chunk.fresh (lookupIn ["IHDR"])
        (streamAt [] [0, 0, 11, 19, 0, 0, 11, 19, 1] []) 9 false).chunk ⟨[], 0⟩)
      = [0, 0, 11, 19, 0, 0, 11, 19, 1] :=
  (parse_encode_roundtrip Chunk.fresh (lookupIn ["IHDR"]) false [] [] ⟨[], 0⟩
    0 0 11 19 0 0 11 19 1 (by decide) (by decide) (by decide)).2.2 (by decide) (by decide)

/-- C8, the code at the payload `00 00 00 00 00 00 00 01 00` (horizontal density 0): with
the header present, no pHYs chunk in the container and the declared length 9, `parse`
accepts it and stores the density 0, and `encode` on the parsed record writes
`00 00 00 01 00 00 00 01 00`, which differs from the payload in its fourth byte. -/
theorem parse_encode_zero_density :
    lookupIn ["IHDR"] "IHDR" false ≠ JsVal.null ∧
    lookupIn ["IHDR"] "pHYs" false = JsVal.null ∧
    (parse Chunk.fresh (lookupIn ["IHDR"])
      (streamAt [] [0, 0, 0, 0, 0, 0, 0, 1, 0] []) 9 false).chunk._xPPU = some 0 ∧
    (parse Chunk.fresh (lookupIn ["IHDR"])
      (streamAt [] [0, 0, 0, 0, 0, 0, 0, 1, 0] []) 9 false).thrown = none ∧
    written ⟨[], 0⟩ (encode
      (parse Chunk.fresh (lookupIn ["IHDR"])
        (streamAt [] [0, 0, 0, 0, 0, 0, 0, 1, 0] []) 9 false).chunk ⟨[], 0⟩)
      = [0, 0, 0, 1, 0, 0, 0, 1, 0] ∧
    written ⟨[], 0⟩ (encode
      (parse Chunk.fresh (lookupIn ["IHDR"])
        (streamAt [] [0, 0, 0, 0, 0, 0, 0, 1, 0] []) 9 false).chunk ⟨[], 0⟩)
      ≠ [0, 0, 0, 0, 0, 0, 0, 1, 0] := by
  decide

/-! ## What a call of `parse` leaves behind -/

theorem readUInt32BE_cases (s : BufferedStream) :
    s.readUInt32BE = (Except.error BufferedStream.outOfRange, s) ∨
    ∃ v, s.readUInt32BE = (Except.ok v, { s with readOffset := s.readOffset + 4 }) := by
  unfold BufferedStream.readUInt32BE
  split
  · exact Or.inr ⟨_, rfl⟩
  · exact Or.inl rfl

theorem readUInt8_cases (s : BufferedStream) :
    s.readUInt8 = (Except.error BufferedStream.outOfRange, s) ∨
    ∃ v, s.readUInt8 = (Except.ok v, { s with readOffset := s.readOffset + 1 }) := by
  unfold BufferedStream.readUInt8
  split
  · exact Or.inr ⟨_, rfl⟩
  · exact Or.inl rfl

/-- An existing pHYs chunk or a declared length other than 9 makes `parse` throw before
anything is read or stored. -/
theorem parse_of_checkThrows (self : Chunk) (gfc : String → Bool → JsVal)
    (stream : BufferedStream) (length : Nat) (strict : Bool)
    (h : checkThrows gfc length) :
    (parse self gfc stream length strict).thrown ≠ none ∧
    (parse self gfc stream length strict).chunk = self ∧
    (parse self gfc stream length strict).stream = stream := by
  rcases h with h | h
  · rw [parse_of_existing self gfc stream length strict h]
    exact ⟨by simp, rfl, rfl⟩
  · by_cases hP : gfc "pHYs" false = JsVal.null
    · rw [parse_of_length self gfc stream length strict hP h]
      exact ⟨by simp, rfl, rfl⟩
    · rw [parse_of_existing self gfc stream length strict hP]
      exact ⟨by simp, rfl, rfl⟩

/-- Every way a call of `parse` can end, with the record and the cursor it leaves: a
validation threw or the first read failed (nothing changed); the second read failed
(horizontal density stored, four bytes consumed); the third read failed (both densities
stored, eight bytes consumed); `setUnit` threw (both densities stored, nine bytes
consumed); or the call returned (all three stored, nine bytes consumed). -/
theorem parse_shape (self : Chunk) (gfc : String → Bool → JsVal)
    (stream : BufferedStream) (length : Nat) (strict : Bool) :
    ((parse self gfc stream length strict).thrown ≠ none ∧
      (parse self gfc stream length strict).chunk = self ∧
      (parse self gfc stream length strict).stream = stream) ∨
    (∃ x, (parse self gfc stream length strict).thrown ≠ none ∧
      (parse self gfc stream length strict).chunk = { self with _xPPU := some x } ∧
      (parse self gfc stream length strict).stream
        = { stream with readOffset := stream.readOffset + 4 }) ∨
    (∃ x y, (parse self gfc stream length strict).thrown ≠ none ∧
      (parse self gfc stream length strict).chunk
        = { self with _xPPU := some x, _yPPU := some y } ∧
      (parse self gfc stream length strict).stream
        = { stream with readOffset := stream.readOffset + 8 }) ∨
    (∃ x y u, ¬ (u = 0 ∨ u = 1) ∧
      (parse self gfc stream length strict).thrown
        = some ("Unit identifier " ++ toString u ++ " is not valid.") ∧
      (parse self gfc stream length strict).chunk
        = { self with _xPPU := some x, _yPPU := some y } ∧
      (parse self gfc stream length strict).stream
        = { stream with readOffset := stream.readOffset + 9 }) ∨
    (∃ x y u, (u = 0 ∨ u = 1) ∧
      (parse self gfc stream length strict).thrown = none ∧
      (parse self gfc stream length strict).chunk
        = { _xPPU := some x, _yPPU := some y, _unit := some u } ∧
      (parse self gfc stream length strict).stream
        = { stream with readOffset := stream.readOffset + 9 }) := by
  by_cases hv : checkThrows gfc length
  · exact Or.inl (parse_of_checkThrows self gfc stream length strict hv)
  · have hP : strictEq (gfc getType false) JsVal.null = true := by
      show strictEq (gfc "pHYs" false) JsVal.null = true
      by_cases h : gfc "pHYs" false = JsVal.null
      · rw [h]; rfl
      · exact absurd (Or.inl h) hv
    have hl : ¬ length ≠ 9 := fun h => hv (Or.inr h)
    have hparse : parse self gfc stream length strict =
        match stream.readUInt32BE with
        | (Except.error e, s1) => ⟨some e, self, s1⟩
        | (Except.ok x, s1) =>
          match s1.readUInt32BE with
          | (Except.error e, s2) => ⟨some e, setXPixelPerUnit self x, s2⟩
          | (Except.ok y, s2) =>
            match s2.readUInt8 with
            | (Except.error e, s3) =>
              ⟨some e, setYPixelPerUnit (setXPixelPerUnit self x) y, s3⟩
            | (Except.ok u, s3) =>
              match setUnit (setYPixelPerUnit (setXPixelPerUnit self x) y) u with
              | (some e, c3) => ⟨some e, c3, s3⟩
              | (none, c3) => ⟨none, c3, s3⟩ := by
      unfold parse
      rw [if_neg (by simp [header_test_false]), if_neg (by simp [hP]), if_neg hl]
    rw [hparse]
    rcases readUInt32BE_cases stream with h1 | ⟨x, h1⟩
    · rw [h1]
      exact Or.inl ⟨by simp, rfl, rfl⟩
    · rw [h1]
      rcases readUInt32BE_cases { stream with readOffset := stream.readOffset + 4 }
        with h2 | ⟨y, h2⟩
      · simp only [h2]
        exact Or.inr (Or.inl ⟨x, by simp, rfl, trivial⟩)
      · simp only [h2]
        rcases readUInt8_cases { stream with readOffset := stream.readOffset + 4 + 4 }
          with h3 | ⟨u, h3⟩
        · simp only [h3]
          exact Or.inr (Or.inr (Or.inl ⟨x, y, by simp, rfl, trivial⟩))
        · simp only [h3]
          by_cases hu : u = 0 ∨ u = 1
          · rw [setUnit_valid _ _ hu]
            exact Or.inr (Or.inr (Or.inr (Or.inr ⟨x, y, u, hu, rfl, rfl, rfl⟩)))
          · rw [setUnit_invalid _ _ hu]
            exact Or.inr (Or.inr (Or.inr (Or.inl ⟨x, y, u, hu, rfl, rfl, rfl⟩)))

theorem unitValid_fresh : Chunk.fresh.unitValid := by
  intro a h
  exact absurd h (by simp [Chunk.fresh])

theorem unitValid_setXPixelPerUnit (c : Chunk) (ppu : Nat) (h : c.unitValid) :
    (setXPixelPerUnit c ppu).unitValid := h

theorem unitValid_setYPixelPerUnit (c : Chunk) (ppu : Nat) (h : c.unitValid) :
    (setYPixelPerUnit c ppu).unitValid := h

theorem unitValid_setUnit (c : Chunk) (u : Nat) (h : c.unitValid) :
    (setUnit c u).2.unitValid := by
  by_cases hu : u = 0 ∨ u = 1
  · rw [setUnit_valid c u hu]
    intro a ha
    have : u = a := by simpa using ha
    exact this ▸ hu
  · rw [setUnit_invalid c u hu]
    exact h

theorem unitValid_parse (self : Chunk) (gfc : String → Bool → JsVal)
    (stream : BufferedStream) (length : Nat) (strict : Bool) (h : self.unitValid) :
    (parse self gfc stream length strict).chunk.unitValid := by
  rcases parse_shape self gfc stream length strict with
    ⟨_, hc, _⟩ | ⟨_, _, hc, _⟩ | ⟨_, _, _, hc, _⟩ | ⟨_, _, _, _, _, hc, _⟩ |
    ⟨_, _, u, hu, _, hc, _⟩
  · rw [hc]; exact h
  · rw [hc]; exact h
  · rw [hc]; exact h
  · rw [hc]; exact h
  · rw [hc]
    intro a ha
    have : u = a := by simpa using ha
    exact this ▸ hu

/-- Whenever `parse` returns normally the cursor has advanced by exactly nine and the
bytes of the stream are untouched; whenever a pHYs chunk already exists or the declared
length is not 9, `parse` throws and the stream, cursor included, is as it was. A missing
header is not among these cases. -/
theorem parse_cursor (self : Chunk) (gfc : String → Bool → JsVal)
    (stream : BufferedStream) (length : Nat) (strict : Bool) :
    ((parse self gfc stream length strict).thrown = none →
      (parse self gfc stream length strict).stream.readOffset = stream.readOffset + 9 ∧
      (parse self gfc stream length strict).stream.buffer = stream.buffer) ∧
    (checkThrows gfc length →
      (parse self gfc stream length strict).thrown ≠ none ∧
      (parse self gfc stream length strict).stream = stream) := by
  constructor
  · intro hok
    rcases parse_shape self gfc stream length strict with
      ⟨h, _, _⟩ | ⟨_, h, _, _⟩ | ⟨_, _, h, _, _⟩ | ⟨_, _, _, _, h, _, _⟩ | ⟨_, _, _, _, _, _, h⟩
    · exact absurd hok h
    · exact absurd hok h
    · exact absurd hok h
    · rw [hok] at h
      exact absurd h (by simp)
    · rw [h]; exact ⟨rfl, rfl⟩
  · intro hv
    have h := parse_of_checkThrows self gfc stream length strict hv
    exact ⟨h.1, h.2.2⟩

/-- A successful parse from offset 3 ends at offset 12; a parse with the declared length
10, and one with a pHYs chunk already in the container, leave the cursor at 3. -/
theorem parse_cursor_witness :
    (parse Chunk.fresh (lookupIn ["IHDR"])
      (streamAt [7, 7, 7] [0, 0, 11, 19, 0, 0, 11, 19, 1] [7]) 9 false).stream.readOffset
        = 3 + 9 ∧
    (parse Chunk.fresh (lookupIn ["IHDR"])
      (streamAt [7, 7, 7] [0, 0, 11, 19, 0, 0, 11, 19, 1] [7]) 10 false).stream
        = streamAt [7, 7, 7] [0, 0, 11, 19, 0, 0, 11, 19, 1] [7] ∧
    (parse Chunk.fresh (lookupIn ["IHDR", "pHYs"])
      (streamAt [7, 7, 7] [0, 0, 11, 19, 0, 0, 11, 19, 1] [7]) 9 false).stream
        = streamAt [7, 7, 7] [0, 0, 11, 19, 0, 0, 11, 19, 1] [7] :=
  ⟨((parse_cursor Chunk.fresh (lookupIn ["IHDR"])
      (streamAt [7, 7, 7] [0, 0, 11, 19, 0, 0, 11, 19, 1] [7]) 9 false).1 (by decide)).1,
    ((parse_cursor Chunk.fresh (lookupIn ["IHDR"])
      (streamAt [7, 7, 7] [0, 0, 11, 19, 0, 0, 11, 19, 1] [7]) 10 false).2
        (Or.inr (by decide))).2,
    ((parse_cursor Chunk.fresh (lookupIn ["IHDR", "pHYs"])
      (streamAt [7, 7, 7] [0, 0, 11, 19, 0, 0, 11, 19, 1] [7]) 9 false).2
        (Or.inl (by decide))).2⟩

/-- C9, the code at a container without a header: the lookup of `IHDR` gives `null`, so the
header precondition of `parse` is not met, yet `parse` of nine valid bytes from offset 3
throws nothing and leaves the cursor at offset 12 instead of leaving it at 3. -/
theorem parse_without_header_advances :
    lookupIn [] "IHDR" false = JsVal.null ∧
    (streamAt [7, 7, 7] [0, 0, 11, 19, 0, 0, 11, 19, 1] [7]).readOffset = 3 ∧
    (parse Chunk.fresh (lookupIn [])
      (streamAt [7, 7, 7] [0, 0, 11, 19, 0, 0, 11, 19, 1] [7]) 9 false).thrown = none ∧
    (parse Chunk.fresh (lookupIn [])
      (streamAt [7, 7, 7] [0, 0, 11, 19, 0, 0, 11, 19, 1] [7]) 9 false).stream.readOffset
        = 12 := by
  decide

/-- C10, as amended. When `parse` throws because a pHYs chunk already exists or because
the declared length is not 9, the record's three stored fields are as before the call.
Whenever `parse` throws, for whichever reason, the stored unit is as before the call.
When it throws on the unit byte of a nine-byte payload, the two densities decoded from the
first eight bytes have already been stored. -/
theorem parse_failure_fields (self : Chunk) (gfc : String → Bool → JsVal)
    (stream : BufferedStream) (length : Nat) (strict : Bool)
    (pre post : List Nat) (x0 x1 x2 x3 y0 y1 y2 y3 u : Nat) :
    ((gfc "pHYs" false ≠ JsVal.null ∨ length ≠ 9) →
      (parse self gfc stream length strict).thrown ≠ none ∧
      (parse self gfc stream length strict).chunk = self) ∧
    ((parse self gfc stream length strict).thrown ≠ none →
      (parse self gfc stream length strict).chunk._unit = self._unit) ∧
    (gfc "pHYs" false = JsVal.null → ¬ (u = 0 ∨ u = 1) →
      (parse self gfc (streamAt pre [x0, x1, x2, x3, y0, y1, y2, y3, u] post) 9 strict).thrown
        = some ("Unit identifier " ++ toString u ++ " is not valid.") ∧
      (parse self gfc (streamAt pre [x0, x1, x2, x3, y0, y1, y2, y3, u] post) 9 strict).chunk
        = { _xPPU := some (x0 * 2 ^ 24 + x1 * 2 ^ 16 + x2 * 2 ^ 8 + x3),
            _yPPU := some (y0 * 2 ^ 24 + y1 * 2 ^ 16 + y2 * 2 ^ 8 + y3),
            _unit := self._unit }) := by
  refine ⟨fun hv => ?_, fun hthrown => ?_, fun hP hu => ?_⟩
  · have h := parse_of_checkThrows self gfc stream length strict hv
    exact ⟨h.1, h.2.1⟩
  · rcases parse_shape self gfc stream length strict with
      ⟨_, h, _⟩ | ⟨_, _, h, _⟩ | ⟨_, _, _, h, _⟩ | ⟨_, _, _, _, _, h, _⟩ | ⟨_, _, _, _, h, _, _⟩
    · rw [h]
    · rw [h]
    · rw [h]
    · rw [h]
    · exact absurd h hthrown
  · rw [parse_nine self gfc strict pre post x0 x1 x2 x3 y0 y1 y2 y3 u hP,
      setUnit_invalid _ _ hu]
    exact ⟨rfl, rfl⟩

/-- C10, witness: on a record holding (5, 6, meter), a parse with the declared length 8
changes nothing, and a parse of `00 00 0B 13 00 00 00 01 02` throws on the unit byte with
the unit still meter. -/
theorem parse_failure_fields_witness :
    (parse ⟨some 5, some 6, some 1⟩ (lookupIn ["IHDR"])
      (streamAt [] [0, 0, 11, 19, 0, 0, 0, 1, 2] []) 8 false).chunk
        = ⟨some 5, some 6, some 1⟩ ∧
    (parse ⟨some 5, some 6, some 1⟩ (lookupIn ["IHDR"])
      (streamAt [] [0, 0, 11, 19, 0, 0, 0, 1, 2] []) 9 false).chunk._unit = some 1 :=
  ⟨((parse_failure_fields ⟨some 5, some 6, some 1⟩ (lookupIn ["IHDR"])
      (streamAt [] [0, 0, 11, 19, 0, 0, 0, 1, 2] []) 8 false [] [] 0 0 0 0 0 0 0 0 0).1
        (Or.inr (by decide))).2,
    (parse_failure_fields ⟨some 5, some 6, some 1⟩ (lookupIn ["IHDR"])
      (streamAt [] [0, 0, 11, 19, 0, 0, 0, 1, 2] []) 9 false [] [] 0 0 0 0 0 0 0 0 0).2.1
        (by decide)⟩

/-- C10, counterexample: on a record holding (5, 6, meter), `parse` of
`00 00 0B 13 00 00 00 01 02` (header present, no pHYs chunk yet, declared length 9) throws
on the unit byte 2, and the record then holds the densities 2835 and 1 instead of 5
and 6. -/
theorem parse_invalid_unit_overwrites :
    (parse ⟨some 5, some 6, some 1⟩ (lookupIn ["IHDR"])
      (streamAt [] [0, 0, 11, 19, 0, 0, 0, 1, 2] []) 9 false).thrown
        = some "Unit identifier 2 is not valid." ∧
    (parse ⟨some 5, some 6, some 1⟩ (lookupIn ["IHDR"])
      (streamAt [] [0, 0, 11, 19, 0, 0, 0, 1, 2] []) 9 false).chunk
        = ⟨some 2835, some 1, some 1⟩ ∧
    (parse ⟨some 5, some 6, some 1⟩ (lookupIn ["IHDR"])
      (streamAt [] [0, 0, 11, 19, 0, 0, 0, 1, 2] []) 9 false).chunk
        ≠ ⟨some 5, some 6, some 1⟩ := by
  decide


/-! ## Defaults, density accessors, identity and unit queries -/

/-- C11. A record on which no setter has been called reports the horizontal density 1, the
vertical density 1 and the unit unknown (0); so does the record `createChunk` hands to
`encodeData`. -/
theorem fresh_defaults :
    getXPixelPerUnit Chunk.fresh = 1 ∧ getYPixelPerUnit Chunk.fresh = 1 ∧
    getUnit Chunk.fresh = units.UNKNOWN ∧ units.UNKNOWN = 0 ∧
    getXPixelPerUnit (createChunk getType) = 1 ∧ getYPixelPerUnit (createChunk getType) = 1 ∧
    getUnit (createChunk getType) = 0 := by
  decide

/-- What the density accessors do for every value: `setXPixelPerUnit v` always succeeds
and stores `v`, leaving the vertical density and the unit, stored and as reported,
unchanged; afterwards `getXPixelPerUnit` returns `v` when `v` is not 0. A stored 0 is lost
in the getter, which then returns 1. Likewise for
`setYPixelPerUnit` and `getYPixelPerUnit`. -/
theorem density_set_get (c : Chunk) (v : Nat) :
    ((setXPixelPerUnit c v)._xPPU = some v ∧
      getXPixelPerUnit (setXPixelPerUnit c v) = (if v = 0 then 1 else v) ∧
      (setXPixelPerUnit c v)._yPPU = c._yPPU ∧ (setXPixelPerUnit c v)._unit = c._unit ∧
      getYPixelPerUnit (setXPixelPerUnit c v) = getYPixelPerUnit c ∧
      getUnit (setXPixelPerUnit c v) = getUnit c) ∧
    ((setYPixelPerUnit c v)._yPPU = some v ∧
      getYPixelPerUnit (setYPixelPerUnit c v) = (if v = 0 then 1 else v) ∧
      (setYPixelPerUnit c v)._xPPU = c._xPPU ∧ (setYPixelPerUnit c v)._unit = c._unit ∧
      getXPixelPerUnit (setYPixelPerUnit c v) = getXPixelPerUnit c ∧
      getUnit (setYPixelPerUnit c v) = getUnit c) := by
  have hv : jsOr (some v) 1 = (if v = 0 then 1 else v) := by
    cases v with
    | zero => rfl
    | succ k => simp [jsOr]
  exact ⟨⟨rfl, hv, rfl, rfl, rfl, rfl⟩, ⟨rfl, hv, rfl, rfl, rfl, rfl⟩⟩

/-- The density 2835 set on a record holding (5, 6, meter) is read back as set. -/
theorem density_set_get_witness :
    getXPixelPerUnit (setXPixelPerUnit ⟨some 5, some 6, some 1⟩ 2835) = 2835 ∧
    getYPixelPerUnit (setYPixelPerUnit ⟨some 5, some 6, some 1⟩ 2835) = 2835 :=
  ⟨(density_set_get ⟨some 5, some 6, some 1⟩ 2835).1.2.1,
    (density_set_get ⟨some 5, some 6, some 1⟩ 2835).2.2.1⟩

/-- C12, the code at the value 0: `setXPixelPerUnit 0` stores 0, and `getXPixelPerUnit`
then returns 1, not the stored 0; likewise for the vertical density. -/
theorem density_zero_reads_one :
    (setXPixelPerUnit Chunk.fresh 0)._xPPU = some 0 ∧
    getXPixelPerUnit (setXPixelPerUnit Chunk.fresh 0) = 1 ∧
    getXPixelPerUnit (setXPixelPerUnit Chunk.fresh 0) ≠ 0 ∧
    (setYPixelPerUnit Chunk.fresh 0)._yPPU = some 0 ∧
    getYPixelPerUnit (setYPixelPerUnit Chunk.fresh 0) = 1 ∧
    getYPixelPerUnit (setYPixelPerUnit Chunk.fresh 0) ≠ 0 := by
  decide

/-- C17. `getType` is the four-character tag `pHYs`; `getTypeId` is the big-endian packing
of the ASCII codes of those four characters, `0x70485973`, a 32-bit value; `getSequence`
is 140. None of the three reads the record. -/
theorem identity_accessors :
    getType = "pHYs" ∧ getType.length = 4 ∧
    getType.toList.map Char.toNat = [0x70, 0x48, 0x59, 0x73] ∧
    getTypeId = fromBE (getType.toList.map Char.toNat) ∧
    getTypeId = 0x70485973 ∧ getTypeId < 2 ^ 32 ∧
    getSequence = 140 := by
  decide

/-- C18, the code at a record whose unit was never set: `getUnit` returns unknown (0), yet
`isUnitUnknown` returns false, and so does `isUnitInMeter`: neither query is true. -/
theorem unit_queries_fresh :
    getUnit Chunk.fresh = units.UNKNOWN ∧ isUnitUnknown Chunk.fresh = false ∧
    isUnitInMeter Chunk.fresh = false := by
  decide

/-- Once the unit has been stored, the two queries agree with `getUnit`. -/
theorem unit_queries_of_set (c : Chunk) (u : Nat) (h : c._unit = some u) :
    (isUnitUnknown c = true ↔ getUnit c = units.UNKNOWN) ∧
    (isUnitInMeter c = true ↔ getUnit c = units.METER) := by
  rw [getUnit_eq c u h]
  simp [isUnitUnknown, isUnitInMeter, h]

/-! ## Export: `encodeData` -/

theorem encodeData_of_absent (image : List Nat) :
    encodeData image ⟨none⟩ = Except.ok [] := rfl

/-- With a `physical` object whose unit, if present, is valid, `encodeData` returns the one
chunk that holds the present properties. -/
theorem encodeData_of_physical (image : List Nat) (p : Physical)
    (hu : ∀ u, p.unit = some u → u = 0 ∨ u = 1) :
    encodeData image ⟨some p⟩ = Except.ok [p.toChunk] := by
  obtain ⟨x, y, u⟩ := p
  cases u with
  | none =>
    cases x <;> cases y <;> rfl
  | some u =>
    have hu' : u = 0 ∨ u = 1 := hu u rfl
    cases x <;> cases y <;>
      simp [encodeData, createChunk, setUnit_valid _ _ hu', setXPixelPerUnit,
        setYPixelPerUnit, Chunk.fresh, Physical.toChunk]

/-- With a `physical` object whose unit is present and not valid, `encodeData` throws the
error of `setUnit`. -/
theorem encodeData_of_invalid (image : List Nat) (x y : Option Nat) (u : Nat)
    (hu : ¬ (u = 0 ∨ u = 1)) :
    encodeData image ⟨some ⟨x, y, some u⟩⟩ =
      Except.error ("Unit identifier " ++ toString u ++ " is not valid.") := by
  cases x <;> cases y <;>
    simp [encodeData, createChunk, setUnit_invalid _ _ hu]

/-- C13. `encodeData` returns the empty list exactly when the export structure has no
`physical` object. With a `physical` object whose unit, if present, is 0 or 1, it returns
exactly one chunk, in which each property present in `physical` has been stored and each
absent one is unset, so that its getter reports the default (1, 1, unknown). -/
theorem encodeData_spec (image : List Nat) (data : ExportData) :
    (encodeData image data = Except.ok [] ↔ data.physical = none) ∧
    (∀ p, data.physical = some p → (∀ u, p.unit = some u → u = 0 ∨ u = 1) →
      ∃ chunk, encodeData image data = Except.ok [chunk] ∧
        chunk._xPPU = p.xPixelPerUnit ∧ chunk._yPPU = p.yPixelPerUnit ∧
        chunk._unit = p.unit ∧
        (p.xPixelPerUnit = none → getXPixelPerUnit chunk = 1) ∧
        (p.yPixelPerUnit = none → getYPixelPerUnit chunk = 1) ∧
        (p.unit = none → getUnit chunk = units.UNKNOWN)) := by
  obtain ⟨physical⟩ := data
  constructor
  · cases physical with
    | none => simp [encodeData_of_absent]
    | some p =>
      obtain ⟨x, y, u⟩ := p
      simp only [reduceCtorEq, iff_false]
      cases u with
      | none => rw [encodeData_of_physical image ⟨x, y, none⟩ (by simp)]; simp
      | some u =>
        by_cases hu : u = 0 ∨ u = 1
        · rw [encodeData_of_physical image ⟨x, y, some u⟩
            (by intro a ha; cases ha; exact hu)]
          simp
        · rw [encodeData_of_invalid image x y u hu]; simp
  · intro p hp hu
    cases hp
    refine ⟨p.toChunk, encodeData_of_physical image p hu, rfl, rfl, rfl, ?_, ?_, ?_⟩
    · intro h; simp [getXPixelPerUnit, Physical.toChunk, h, jsOr]
    · intro h; simp [getYPixelPerUnit, Physical.toChunk, h, jsOr]
    · intro h; simp [getUnit, Physical.toChunk, h, jsOr, units.UNKNOWN]

/-- C13, witness: `physical` with only the horizontal density 2835 and the unit meter. -/
theorem encodeData_spec_witness :
    ∃ chunk, encodeData [] ⟨some ⟨some 2835, none, some 1⟩⟩ = Except.ok [chunk] ∧
      chunk._xPPU = some 2835 ∧ chunk._yPPU = none ∧ chunk._unit = some 1 ∧
      getYPixelPerUnit chunk = 1 :=
  match (encodeData_spec [] ⟨some ⟨some 2835, none, some 1⟩⟩).2 ⟨some 2835, none, some 1⟩
    rfl (by decide) with
  | ⟨chunk, h, hx, hy, hu, _, hgy, _⟩ => ⟨chunk, h, hx, hy, hu, hgy rfl⟩

/-! ## Import: `decodeData` -/

theorem getProp_setProp_same {V : Type} (o : Props V) (k : String) (v : V) :
    getProp (setProp o k v) k = some v := by
  induction o with
  | nil => simp [setProp, getProp]
  | cons e rest ih =>
    obtain ⟨k', v'⟩ := e
    by_cases h : k' = k
    · simp [setProp, getProp, h]
    · simp [setProp, getProp, h, ih]

theorem getProp_setProp_other {V : Type} (o : Props V) (k j : String) (v : V)
    (hj : j ≠ k) : getProp (setProp o k v) j = getProp o j := by
  induction o with
  | nil =>
    have : ¬ k = j := fun h => hj h.symm
    simp [setProp, getProp, this]
  | cons e rest ih =>
    obtain ⟨k', v'⟩ := e
    by_cases h : k' = k
    · have h1 : ¬ k = j := fun h => hj h.symm
      have h2 : ¬ k' = j := fun h' => hj (h'.symm.trans h)
      rw [setProp, if_pos h, getProp, if_neg h1, getProp, if_neg h2]
    · rw [setProp, if_neg h]
      by_cases h' : k' = j
      · rw [getProp, if_pos h', getProp, if_pos h']
      · rw [getProp, if_neg h', getProp, if_neg h', ih]

/-- With exactly one record of this type in the container, `decodeData` assigns
`data.volatile.physical` and nothing else. -/
theorem decodeData_of_one (gcbt : String → Option (List Chunk)) (data : ImportData)
    (strict : Bool) (c : Chunk) (h : gcbt "pHYs" = some [c]) :
    decodeData gcbt data strict =
      ⟨none,
        { data with volatile := some (setProp (data.volatile.getD []) "physical"
            (VolatileVal.physical
              { xPixelPerUnit := some (getXPixelPerUnit c),
                yPixelPerUnit := some (getYPixelPerUnit c),
                unit := some (getUnit c) })) },
        some [c]⟩ := by
  have h' : gcbt getType = some [c] := h
  simp [decodeData, h']

/-- C14. When the lookup of the records of type `pHYs` finds none, `decodeData` returns
normally and the import structure is as it was, whatever it holds. -/
theorem decodeData_without_record (gcbt : String → Option (List Chunk))
    (data : ImportData) (strict : Bool) (h : gcbt "pHYs" = none) :
    (decodeData gcbt data strict).thrown = none ∧
    (decodeData gcbt data strict).data = data := by
  have h' : gcbt getType = none := h
  simp [decodeData, h']

/-- C14, witness: a container without pHYs record and an import structure that already
holds a top-level property and a volatile entry. -/
theorem decodeData_without_record_witness :
    (decodeData (recordsOf []) ⟨some [("gamma", VolatileVal.other 4)], [("width", 3)]⟩
      false).data = ⟨some [("gamma", VolatileVal.other 4)], [("width", 3)]⟩ :=
  (decodeData_without_record (recordsOf [])
    ⟨some [("gamma", VolatileVal.other 4)], [("width", 3)]⟩ false (by decide)).2

/-- C15. With exactly one record of this type in the container, `decodeData` returns
normally and `data.volatile.physical` then holds the object whose three properties are
the record's `getXPixelPerUnit`, `getYPixelPerUnit` and `getUnit`, all present (1, 1 and 0
for a record on which no setter was called). With two or more records it throws "Not more
than one chunk allowed for pHYs." and leaves the import structure as it was. -/
theorem decodeData_with_records (gcbt : String → Option (List Chunk))
    (data : ImportData) (strict : Bool) :
    (∀ c, gcbt "pHYs" = some [c] →
      (decodeData gcbt data strict).thrown = none ∧
      readVolatile (decodeData gcbt data strict).data "physical" =
        some (VolatileVal.physical
          { xPixelPerUnit := some (getXPixelPerUnit c),
            yPixelPerUnit := some (getYPixelPerUnit c),
            unit := some (getUnit c) }) ∧
      (c = Chunk.fresh →
        readVolatile (decodeData gcbt data strict).data "physical" =
          some (VolatileVal.physical
            { xPixelPerUnit := some 1, yPixelPerUnit := some 1, unit := some 0 }))) ∧
    (∀ c1 c2 rest, gcbt "pHYs" = some (c1 :: c2 :: rest) →
      (decodeData gcbt data strict).thrown
        = some "Not more than one chunk allowed for pHYs." ∧
      (decodeData gcbt data strict).data = data) := by
  constructor
  · intro c h
    rw [decodeData_of_one gcbt data strict c h]
    refine ⟨rfl, getProp_setProp_same _ _ _, ?_⟩
    intro hc
    subst hc
    exact getProp_setProp_same _ _ _
  · intro c1 c2 rest h
    have h' : gcbt getType = some (c1 :: c2 :: rest) := h
    have hmsg : "Not more than one chunk allowed for " ++ getType ++ "."
        = "Not more than one chunk allowed for pHYs." := by decide
    simp [decodeData, h', hmsg]

/-- C15, witness: one record holding (2835, unset, meter); then two records. -/
theorem decodeData_with_records_witness :
    readVolatile (decodeData (recordsOf [⟨some 2835, none, some 1⟩]) ⟨none, []⟩ false).data
        "physical" =
      some (VolatileVal.physical
        { xPixelPerUnit := some 2835, yPixelPerUnit := some 1, unit := some 1 }) ∧
    (decodeData (recordsOf [⟨some 2835, none, some 1⟩, Chunk.fresh]) ⟨none, []⟩ false).thrown
      = some "Not more than one chunk allowed for pHYs." :=
  ⟨((decodeData_with_records (recordsOf [⟨some 2835, none, some 1⟩]) ⟨none, []⟩ false).1
      ⟨some 2835, none, some 1⟩ (by decide)).2.1,
    ((decodeData_with_records (recordsOf [⟨some 2835, none, some 1⟩, Chunk.fresh])
      ⟨none, []⟩ false).2 ⟨some 2835, none, some 1⟩ Chunk.fresh [] (by decide)).1⟩

/-- C19. When `decodeData` runs with exactly one record of this type, it returns normally,
the top-level properties of the import structure other than `volatile` are as they were,
every property of `data.volatile` other than `physical` reads as before the call, and the
records of the container are as they were. -/
theorem decodeData_frame (gcbt : String → Option (List Chunk)) (data : ImportData)
    (strict : Bool) (c : Chunk) (h : gcbt "pHYs" = some [c]) :
    (decodeData gcbt data strict).thrown = none ∧
    (decodeData gcbt data strict).data.others = data.others ∧
    (∀ k, k ≠ "physical" →
      readVolatile (decodeData gcbt data strict).data k = readVolatile data k) ∧
    (decodeData gcbt data strict).chunks = gcbt "pHYs" := by
  rw [decodeData_of_one gcbt data strict c h]
  refine ⟨rfl, rfl, ?_, h.symm⟩
  intro k hk
  show getProp (setProp (data.volatile.getD []) "physical" _) k = readVolatile data k
  rw [getProp_setProp_other _ _ _ _ hk]
  cases hv : data.volatile with
  | none => simp [readVolatile, hv, getProp]
  | some v => simp [readVolatile, hv]

/-- C19, witness: the import structure holds a top-level property, a volatile entry of
another chunk type and a stale `physical` entry; only the last is replaced. -/
theorem decodeData_frame_witness :
    (decodeData (recordsOf [⟨some 2835, none, some 1⟩])
      ⟨some [("gamma", VolatileVal.other 4), ("physical", VolatileVal.other 9)],
        [("width", 3)]⟩ false).data =
      ⟨some [("gamma", VolatileVal.other 4),
          ("physical", VolatileVal.physical ⟨some 2835, some 1, some 1⟩)],
        [("width", 3)]⟩ ∧
    (decodeData (recordsOf [⟨some 2835, none, some 1⟩])
      ⟨some [("gamma", VolatileVal.other 4), ("physical", VolatileVal.other 9)],
        [("width", 3)]⟩ false).data.others = [("width", 3)] :=
  ⟨by decide,
    (decodeData_frame (recordsOf [⟨some 2835, none, some 1⟩])
      ⟨some [("gamma", VolatileVal.other 4), ("physical", VolatileVal.other 9)],
        [("width", 3)]⟩ false ⟨some 2835, none, some 1⟩ (by decide)).2.1⟩

/-! ## Export, encode, parse, import -/

/-- What `parse` makes of the nine bytes `encode` wrote for a record whose getters are in
range: it returns normally and stores what the getters reported. -/
theorem parse_written_encode (self c : Chunk) (gfc : String → Bool → JsVal) (strict : Bool)
    (pre post : List Nat) (out : BufferedStream)
    (hx : getXPixelPerUnit c < 2 ^ 32) (hy : getYPixelPerUnit c < 2 ^ 32)
    (hu : getUnit c = 0 ∨ getUnit c = 1) (hP : gfc "pHYs" false = JsVal.null) :
    parse self gfc (streamAt pre (written out (encode c out)) post) 9 strict =
      ⟨none,
        { _xPPU := some (getXPixelPerUnit c), _yPPU := some (getYPixelPerUnit c),
          _unit := some (getUnit c) },
        { buffer := pre ++ written out (encode c out) ++ post,
          readOffset := pre.length + 9 }⟩ := by
  have hum : getUnit c % 256 = getUnit c := by
    rcases hu with h | h <;> rw [h]
  have hw : written out (encode c out) =
      [getXPixelPerUnit c / 2 ^ 24 % 256, getXPixelPerUnit c / 2 ^ 16 % 256,
       getXPixelPerUnit c / 2 ^ 8 % 256, getXPixelPerUnit c % 256,
       getYPixelPerUnit c / 2 ^ 24 % 256, getYPixelPerUnit c / 2 ^ 16 % 256,
       getYPixelPerUnit c / 2 ^ 8 % 256, getYPixelPerUnit c % 256,
       getUnit c] := by
    rw [written_encode, hum]; rfl
  rw [hw, parse_nine self gfc strict pre post _ _ _ _ _ _ _ _ _ hP,
    be32_decode _ hx, be32_decode _ hy, setUnit_valid _ _ hu]

theorem getD_lt (v : Option Nat) (d n : Nat) (hd : d < n) (hv : ∀ a, v = some a → a < n) :
    v.getD d < n := by
  cases v with
  | none => exact hd
  | some a => exact hv a rfl

theorem jsOr_eq_getD (v : Option Nat) (d : Nat) (hv : ∀ a, v = some a → a ≠ 0 ∨ d = 0) :
    jsOr v d = v.getD d := by
  cases v with
  | none => rfl
  | some a =>
    cases a with
    | zero =>
      rcases hv 0 rfl with h | h
      · exact absurd rfl h
      · subst h; rfl
    | succ k => rfl

/-- C16. For every `physical` object that gives any subset of a horizontal density in
`1 .. 2^32-1`, a vertical density in `1 .. 2^32-1` and a unit that is 0 or 1: `encodeData`
returns one chunk; `encode` writes for it the nine bytes BE32(x, or 1 if absent),
BE32(y, or 1 if absent), unit (or 0 if absent); `parse` of those bytes on a fresh record
(declared length 9, no pHYs chunk in the container yet) returns normally; and `decodeData`
on a container holding just the parsed record returns normally with
`data.volatile.physical` holding exactly those three values. -/
theorem export_import_roundtrip (image : List Nat) (p : Physical) (out : BufferedStream)
    (pre post : List Nat) (gfc : String → Bool → JsVal) (strict : Bool) (data : ImportData)
    (hx : ∀ x, p.xPixelPerUnit = some x → 1 ≤ x ∧ x < 2 ^ 32)
    (hy : ∀ y, p.yPixelPerUnit = some y → 1 ≤ y ∧ y < 2 ^ 32)
    (hu : ∀ u, p.unit = some u → u = 0 ∨ u = 1)
    (hP : gfc "pHYs" false = JsVal.null) :
    encodeData image ⟨some p⟩ = Except.ok [p.toChunk] ∧
    written out (encode p.toChunk out) =
      be32 (p.xPixelPerUnit.getD 1) ++ be32 (p.yPixelPerUnit.getD 1) ++ [p.unit.getD 0] ∧
    (parse Chunk.fresh gfc
      (streamAt pre (written out (encode p.toChunk out)) post) 9 strict).thrown = none ∧
    (decodeData (recordsOf [(parse Chunk.fresh gfc
      (streamAt pre (written out (encode p.toChunk out)) post) 9 strict).chunk])
      data strict).thrown = none ∧
    readVolatile (decodeData (recordsOf [(parse Chunk.fresh gfc
      (streamAt pre (written out (encode p.toChunk out)) post) 9 strict).chunk])
      data strict).data "physical" =
        some (VolatileVal.physical
          { xPixelPerUnit := some (p.xPixelPerUnit.getD 1),
            yPixelPerUnit := some (p.yPixelPerUnit.getD 1),
            unit := some (p.unit.getD 0) }) := by
  have hgx : getXPixelPerUnit p.toChunk = p.xPixelPerUnit.getD 1 :=
    jsOr_eq_getD _ _ (fun a ha => Or.inl (by have := (hx a ha).1; omega))
  have hgy : getYPixelPerUnit p.toChunk = p.yPixelPerUnit.getD 1 :=
    jsOr_eq_getD _ _ (fun a ha => Or.inl (by have := (hy a ha).1; omega))
  have hgu : getUnit p.toChunk = p.unit.getD 0 :=
    jsOr_eq_getD _ _ (fun _ _ => Or.inr rfl)
  have hxl : p.xPixelPerUnit.getD 1 < 2 ^ 32 :=
    getD_lt _ _ _ (by norm_num) (fun a ha => (hx a ha).2)
  have hyl : p.yPixelPerUnit.getD 1 < 2 ^ 32 :=
    getD_lt _ _ _ (by norm_num) (fun a ha => (hy a ha).2)
  have hul : p.unit.getD 0 = 0 ∨ p.unit.getD 0 = 1 := by
    cases h : p.unit with
    | none => exact Or.inl rfl
    | some u => exact hu u h
  have hum : p.unit.getD 0 % 256 = p.unit.getD 0 := by
    rcases hul with h | h <;> rw [h]
  have hparse := parse_written_encode Chunk.fresh p.toChunk gfc strict pre post out
    (by rw [hgx]; exact hxl) (by rw [hgy]; exact hyl) (by rw [hgu]; exact hul) hP
  rw [hgx, hgy, hgu] at hparse
  have hrec : recordsOf [(⟨some (p.xPixelPerUnit.getD 1), some (p.yPixelPerUnit.getD 1),
      some (p.unit.getD 0)⟩ : Chunk)] "pHYs"
      = some [⟨some (p.xPixelPerUnit.getD 1), some (p.yPixelPerUnit.getD 1),
      some (p.unit.getD 0)⟩] := by
    simp [recordsOf]
  have hdec := decodeData_of_one _ data strict _ hrec
  have hx1 : jsOr (some (p.xPixelPerUnit.getD 1)) 1 = p.xPixelPerUnit.getD 1 := by
    cases h : p.xPixelPerUnit with
    | none => rfl
    | some a => exact jsOr_of_pos _ _ (hx a h).1
  have hy1 : jsOr (some (p.yPixelPerUnit.getD 1)) 1 = p.yPixelPerUnit.getD 1 := by
    cases h : p.yPixelPerUnit with
    | none => rfl
    | some a => exact jsOr_of_pos _ _ (hy a h).1
  simp only [getXPixelPerUnit, getYPixelPerUnit, getUnit, hx1, hy1, jsOr_default_zero]
    at hdec
  refine ⟨encodeData_of_physical image p hu, ?_, ?_, ?_, ?_⟩
  · rw [written_encode, hgx, hgy, hgu, hum]
  · rw [hparse]
  · rw [hparse, hdec]
  · rw [hparse, hdec]
    exact getProp_setProp_same _ _ _

/-- C16, witness: `physical` with the horizontal density 2835 and the unit meter gives the
bytes `00 00 0B 13 00 00 00 01 01`, which come back as 2835, 1 and meter. -/
theorem export_import_roundtrip_witness :
    written ⟨[], 0⟩ (encode (Physical.toChunk ⟨some 2835, none, some 1⟩) ⟨[], 0⟩)
      = [0, 0, 11, 19, 0, 0, 0, 1, 1] ∧
    readVolatile (decodeData (recordsOf [(parse Chunk.fresh (lookupIn ["IHDR"])
      (streamAt [] (written ⟨[], 0⟩ (encode (Physical.toChunk ⟨some 2835, none, some 1⟩)
        ⟨[], 0⟩)) []) 9 false).chunk]) ⟨none, []⟩ false).data "physical" =
        some (VolatileVal.physical
          { xPixelPerUnit := some 2835, yPixelPerUnit := some 1, unit := some 1 }) :=
  ⟨by decide,
    (export_import_roundtrip [] ⟨some 2835, none, some 1⟩ ⟨[], 0⟩ [] [] (lookupIn ["IHDR"])
      false ⟨none, []⟩ (by decide) (by decide) (by decide) (by decide)).2.2.2.2⟩

end PHYs
